import Mathlib

/-
Verification development for the jyserver command bridge
(src/jyserver/__init__.py). The Python source is shallowly embedded:
strings are lists of characters, JSON values are an inductive type,
the per-session ClientContext state is an explicit structure, and the
cross-thread rendezvous (queue.Queue.get with a timeout) is modelled
by an environment that says when, and with what payload, the browser's
reply arrives.
-/

/-- Strings of the Python source are modelled as lists of characters. -/
abbrev Str := List Char

/-- JSON values, the wire data model of the bridge. Numbers are modelled as
integers (the claims under study never involve floats). -/
inductive JVal where
  | jnull : JVal
  | jbool (b : Bool) : JVal
  | jnum (n : Int) : JVal
  | jstr (s : Str) : JVal
  | jarr (elems : List JVal) : JVal
  | jobj (fields : List (Str × JVal)) : JVal

/-- Lower-case hex digit, as used by Python escape sequences. -/
def hexDigit (n : Nat) : Char :=
  if n < 10 then Char.ofNat (48 + n) else Char.ofNat (87 + n)

/-- Four lower-case hex digits (for a JSON \u escape). -/
def hex4 (n : Nat) : Str :=
  [hexDigit (n / 4096 % 16), hexDigit (n / 256 % 16), hexDigit (n / 16 % 16), hexDigit (n % 16)]

/-- How `json.dumps` (ensure_ascii default) escapes one character of a string. -/
def jEscChar (c : Char) : Str :=
  if c = '"' then ['\\', '"']
  else if c = '\\' then ['\\', '\\']
  else if c = '\n' then ['\\', 'n']
  else if c = '\r' then ['\\', 'r']
  else if c = '\t' then ['\\', 't']
  else if c = '\x08' then ['\\', 'b']
  else if c = '\x0c' then ['\\', 'f']
  else if c.toNat < 0x20 ∨ c.toNat ≥ 0x7f then
    if c.toNat < 0x10000 then '\\' :: 'u' :: hex4 c.toNat
    else
      ('\\' :: 'u' :: hex4 (0xd800 + (c.toNat - 0x10000) / 0x400)) ++
      ('\\' :: 'u' :: hex4 (0xdc00 + (c.toNat - 0x10000) % 0x400))
  else [c]

/-- `json.dumps` of a Python string. -/
def jstrDumps (s : Str) : Str := '"' :: (s.map jEscChar).flatten ++ ['"']

/-- Decimal rendering of an integer, as Python `str`/`json.dumps` print it. -/
def intStr (n : Int) : Str := (toString n).data

mutual

/-- `json.dumps` of a JSON value, with the default separators (", " and ": ");
jdumpsItems and jdumpsFields render the comma-joined element lists. -/
def jdumps : JVal → Str
  | .jnull => "null".data
  | .jbool true => "true".data
  | .jbool false => "false".data
  | .jnum n => intStr n
  | .jstr s => jstrDumps s
  | .jarr l => '[' :: jdumpsItems l ++ [']']
  | .jobj l => '\x7b' :: jdumpsFields l ++ ['\x7d']

def jdumpsItems : List JVal → Str
  | [] => []
  | [v] => jdumps v
  | v :: rest => jdumps v ++ ", ".data ++ jdumpsItems rest

def jdumpsFields : List (Str × JVal) → Str
  | [] => []
  | [(k, v)] => jstrDumps k ++ ": ".data ++ jdumps v
  | (k, v) :: rest => jstrDumps k ++ ": ".data ++ jdumps v ++ ", ".data ++ jdumpsFields rest

end

/-- Python type name of a JSON-decoded value (used in CPython error texts). -/
def pyTypeName : JVal → Str
  | .jnull => "NoneType".data
  | .jbool _ => "bool".data
  | .jnum _ => "int".data
  | .jstr _ => "str".data
  | .jarr _ => "list".data
  | .jobj _ => "dict".data

/-- Quote character Python `repr` picks for a string: single quote, unless the
string holds a single quote and no double quote. -/
def pyQuote (s : Str) : Char :=
  if s.contains '\x27' ∧ ¬ s.contains '"' then '"' else '\x27'

/-- How Python `repr` escapes one character of a string, given the quote
character chosen. Non-ASCII printability classes are approximated: characters
at or above 0x80 are kept literal. -/
def pyEscChar (q : Char) (c : Char) : Str :=
  if c = '\\' then ['\\', '\\']
  else if c = q then ['\\', q]
  else if c = '\n' then ['\\', 'n']
  else if c = '\r' then ['\\', 'r']
  else if c = '\t' then ['\\', 't']
  else if c.toNat < 0x20 ∨ c.toNat = 0x7f then
    ['\\', 'x', hexDigit (c.toNat / 16), hexDigit (c.toNat % 16)]
  else [c]

/-- Python `repr` of a string. -/
def pyReprStr (s : Str) : Str :=
  pyQuote s :: (s.map (pyEscChar (pyQuote s))).flatten ++ [pyQuote s]

mutual

/-- Python `repr` (= `str` for containers) of a JSON-decoded value;
pyReprItems and pyReprFields render the comma-joined container bodies. -/
def pyRepr : JVal → Str
  | .jnull => "None".data
  | .jbool true => "True".data
  | .jbool false => "False".data
  | .jnum n => intStr n
  | .jstr s => pyReprStr s
  | .jarr l => '[' :: pyReprItems l ++ [']']
  | .jobj l => '\x7b' :: pyReprFields l ++ ['\x7d']

def pyReprItems : List JVal → Str
  | [] => []
  | [v] => pyRepr v
  | v :: rest => pyRepr v ++ ", ".data ++ pyReprItems rest

def pyReprFields : List (Str × JVal) → Str
  | [] => []
  | [(k, v)] => pyReprStr k ++ ": ".data ++ pyRepr v
  | (k, v) :: rest => pyReprStr k ++ ": ".data ++ pyRepr v ++ ", ".data ++ pyReprFields rest

end

/-- A parsed JSON request body: the dictionary passed to processCommand. -/
abbrev Req := List (Str × JVal)

/-- Python `str` of the request dictionary (`return str(req)` in the `state`
branch of processCommand). -/
def pyReprDict (r : Req) : Str :=
  '\x7b' :: (List.intercalate (", ".data)
    (r.map (fun kv => pyReprStr kv.1 ++ ": ".data ++ pyRepr kv.2))) ++ ['\x7d']

/-- First-match association-list lookup (Python dict read `d[k]` / `k in d`). -/
def alookup {α β : Type} [DecidableEq α] : List (α × β) → α → Option β
  | [], _ => none
  | (a, b) :: r, k => if a = k then some b else alookup r k

/-- Association-list write `d[k] = v`: replace in place, or append a new key. -/
def aset {α β : Type} [DecidableEq α] : List (α × β) → α → β → List (α × β)
  | [], k, v => [(k, v)]
  | (a, b) :: r, k, v => if a = k then (a, v) :: r else (a, b) :: aset r k v

/-- Association-list delete `del d[k]` (keys are unique in the maps modelled). -/
def adel {α β : Type} [DecidableEq α] : List (α × β) → α → List (α × β)
  | [], _ => []
  | (a, b) :: r, k => if a = k then r else (a, b) :: adel r k

/-- Python truthiness of a JSON-decoded value (`if not haskey`, `if f`). -/
def truthy : JVal → Bool
  | .jnull => false
  | .jbool b => b
  | .jnum n => n ≠ 0
  | .jstr s => !s.isEmpty
  | .jarr l => !l.isEmpty
  | .jobj l => !l.isEmpty

/-- Python exceptions raised by the bridge code. -/
inductive PyErr where
  | runtimeError (msg : Str)
  | timeoutError (msg : Str)
  | keyError (key : JVal)
  | typeError (msg : Str)
  | indexError (msg : Str)

/-- The mutable per-session state of a ClientContext: outbound task queue
(with the None end-of-session sentinel as `none`), the Pending-Query Table
(query id, and the requests `q.put` appended to its rendezvous queue), the
allocator for fresh query ids (standing in for CPython `id(q)`), the
Concurrency Guard lock, the deferred-error slot `_error`, and `uid`.
Callables (the app object and the Function Registry) are threaded separately
so that this structure stays first-order. -/
structure Ctx where
  uid : Str
  tasks : List (Option Str)
  queries : List (Int × List Req)
  nextId : Int
  lockHeld : Bool
  errorSlot : Option PyErr

/-- One iteration window of ClientContext.addTask: `takes k` is the number of
tasks the long-poll consumer removes from the front of the queue while the
producer sleeps 0.1s after its k-th failed attempt. -/
def queueAt (takes : Nat → Nat) (q : List (Option Str)) : Nat → List (Option Str)
  | 0 => q
  | k + 1 => (queueAt takes q k).drop (takes k)

/-- The retry loop of ClientContext.addTask: up to `fuel` attempts; enqueue as
soon as fewer than 5 tasks are pending, otherwise sleep and let the consumer
drain `takes 0` items; after the last attempt the statement is abandoned and a
TimeoutError is reported for the session error slot. -/
def addTaskLoop (stmt : Str) : Nat → (Nat → Nat) → List (Option Str) →
    List (Option Str) × Option PyErr
  | 0, _, q => (q, some (.timeoutError ("Timeout inserting task: ".data ++ stmt)))
  | fuel + 1, takes, q =>
      if q.length < 5 then (q ++ [some stmt], none)
      else addTaskLoop stmt fuel (fun k => takes (k + 1)) (q.drop (takes 0))

/-- ClientContext.addTask: 10 attempts; on failure the statement is dropped
and `self._error` is set (no exception propagates to the caller). -/
def ClientContext.addTask (takes : Nat → Nat) (ctx : Ctx) (stmt : Str) : Ctx :=
  match addTaskLoop stmt 10 takes ctx.tasks with
  | (q, none) => { ctx with tasks := q }
  | (q, some e) => { ctx with tasks := q, errorSlot := some e }

/-- ClientContext.addQuery: allocate a fresh rendezvous queue and register it
in the Pending-Query Table under a fresh id (CPython uses `id(q)`). -/
def ClientContext.addQuery (ctx : Ctx) : Int × Ctx :=
  (ctx.nextId,
   { ctx with queries := ctx.queries ++ [(ctx.nextId, [])], nextId := ctx.nextId + 1 })

/-- ClientContext.delQuery. Despite its name and doc string ("Delete query"),
the source body is `return self.queries[query]`: it only reads the entry and
never removes it from the Pending-Query Table. -/
def ClientContext.delQuery (ctx : Ctx) (q : Int) : Except PyErr (List Req) :=
  match alookup ctx.queries q with
  | some e => .ok e
  | none => .error (.keyError (.jnum q))

/-- ClientContext.getQuery: `self.queries[query]` with an arbitrary JSON value
as key. Python `True`/`False` hash like 1/0 against the int keys; unhashable
keys raise TypeError; any other miss raises KeyError with the key as payload. -/
def ClientContext.getQuery (ctx : Ctx) (k : JVal) : Except PyErr (List Req) :=
  match k with
  | .jnum n =>
      match alookup ctx.queries n with
      | some e => .ok e
      | none => .error (.keyError (.jnum n))
  | .jbool b =>
      match alookup ctx.queries (if b then 1 else 0) with
      | some e => .ok e
      | none => .error (.keyError (.jbool b))
  | .jarr _ => .error (.typeError "unhashable type: \x27list\x27".data)
  | .jobj _ => .error (.typeError "unhashable type: \x27dict\x27".data)
  | v => .error (.keyError v)

/-- The reply dictionary that the bootstrap's sendFromBrowserToServer posts
for a pending query: `error` is always a string (empty on success), `value`
is absent exactly when the evaluated JS expression was undefined. -/
structure StateRes where
  value : Option JVal
  error : Str

/-- Environment for one synchronous evaluation: `takes` is the concurrent
long-poll drain schedule seen by addTask, and `arrival`, when present, gives
the time (in the units of the Python timeouts) at which the browser's state
reply reaches this query's rendezvous queue, together with its payload.
`arrival = none` means no reply ever comes (q.get raises queue.Empty). -/
structure EvalEnv where
  takes : Nat → Nat
  arrival : Option (Nat × StateRes)

/-- An Expression Chain: the accumulated syntax fragments and the
still-pending flag. -/
structure JSchain where
  chain : List Str
  keep : Bool

/-- The Javascript statement a chain denotes: `''.join(self.chain)`. -/
def JSchain.statement (js : JSchain) : Str := js.chain.flatten

/-- JSchain._add: append a fragment, preceded by a dot when requested and the
chain is nonempty; a falsy (empty/None) fragment is ignored. -/
def JSchain._add (js : JSchain) (attr : Str) (dot : Bool) : JSchain :=
  if attr = [] then js
  else if dot ∧ js.chain ≠ [] then { js with chain := js.chain ++ [".".data, attr] }
  else { js with chain := js.chain ++ [attr] }

/-- JSchain._prepend: insert a fragment at the start of the chain. -/
def JSchain._prepend (js : JSchain) (attr : Str) : JSchain :=
  { js with chain := attr :: js.chain }

/-- JSchain._dup: a fresh chain (keep = True) sharing the same fragments. -/
def JSchain._dup (js : JSchain) : JSchain := { chain := js.chain, keep := true }

/-- JSchain.getdata: the `dom` shorthand rewrites the last fragment into a
document.getElementById lookup of the next name; otherwise the name is
appended. -/
def JSchain.getdata (js : JSchain) (attr : Str) (adot : Bool) : JSchain :=
  if js.chain.getLast? = some ("dom".data) then
    ((({ js with chain := js.chain.dropLast ++ ["document".data] })._add
        ("getElementById".data) true)._add ("(\"".data ++ attr ++ "\")".data) false)
  else js._add attr adot

/-- JSchain.setdata for a non-callable right-hand side: append
`attr=<json.dumps value>`. -/
def JSchain.setdata (js : JSchain) (attr : Str) (value : JVal) (adot : Bool) : JSchain :=
  (js._add attr adot)._add ("=".data ++ jdumps value) false

/-- JSchain.setdata for a callable right-hand side: the callable is stored in
the Function Registry under `idx` (CPython uses `id(value)`) and the remote
statement installs a `server._callfxn(idx)` trampoline. -/
def JSchain.setdataFn (js : JSchain) (attr : Str) (idx : Int) (adot : Bool) : JSchain :=
  (js._add attr adot)._add
    ("=function()\x7bserver._callfxn(".data ++ intStr idx ++ ");\x7d".data) false

/-- JSchain.__call__: append the parenthesized, comma-joined, JSON-encoded
argument list (keyword-argument values would follow positional ones). -/
def JSchain.call (js : JSchain) (args : List JVal) : JSchain :=
  js._add ('(' :: (List.intercalate (",".data) (args.map jdumps)) ++ [')']) false

/-- The wrapper statement a synchronous evaluation enqueues:
`"sendFromBrowserToServer({}, {})".format(json.dumps(stmt), idx)`. -/
def sendWrapper (stmt : Str) (idx : Int) : Str :=
  "sendFromBrowserToServer(".data ++ jstrDumps stmt ++ ", ".data ++ intStr idx ++ ")".data

/-- JSchain.evalTimed (the source's JSchain.eval with explicit timeout):
an already-flushed chain returns 0; a held Concurrency Guard raises; otherwise
a fresh query id is registered, the sendFromBrowserToServer wrapper is handed
to addTask, and the caller blocks on the rendezvous queue for up to `timeout`
time units, then raises TimeoutError (message spelled "Timout" in the source)
on no reply, re-raises a reported remote error as RuntimeError, and otherwise
returns the reported value (0 if the reply carries none). delQuery, called
after a successful read, leaves the Pending-Query Table unchanged. -/
def JSchain.evalTimed (env : EvalEnv) (timeout : Nat) (ctx : Ctx) (js : JSchain) :
    Ctx × JSchain × Except PyErr JVal :=
  if js.keep = false then (ctx, js, .ok (.jnum 0))
  else
    let js1 := { js with keep := false }
    let stmt := js.statement
    if ctx.lockHeld then
      (ctx, js1, .error (.runtimeError
        ("App is active so you cannot manipulate JS for: ".data ++ stmt)))
    else
      let idx := ctx.nextId
      let ctx1 := { ctx with queries := ctx.queries ++ [(idx, [])], nextId := ctx.nextId + 1 }
      let ctx2 := ClientContext.addTask env.takes ctx1 (sendWrapper stmt idx)
      match env.arrival with
      | none => (ctx2, js1, .error (.timeoutError ("Timout waiting on: ".data ++ stmt)))
      | some (t, r) =>
          if t ≤ timeout then
            if r.error = [] then
              match r.value with
              | some v => (ctx2, js1, .ok v)
              | none => (ctx2, js1, .ok (.jnum 0))
            else (ctx2, js1, .error (.runtimeError (r.error ++ ": ".data ++ stmt)))
          else (ctx2, js1, .error (.timeoutError ("Timout waiting on: ".data ++ stmt)))

/-- The default timeout of JSchain.eval (10 time units). -/
def evalDefaultTimeout : Nat := 10

/-- JSchain.eval with its default timeout argument. -/
def JSchain.evalChain (env : EvalEnv) (ctx : Ctx) (js : JSchain) :
    Ctx × JSchain × Except PyErr JVal :=
  JSchain.evalTimed env evalDefaultTimeout ctx js

/-- JSchain.evalAsync: enqueue the statement and clear the pending flag. -/
def JSchain.evalAsync (takes : Nat → Nat) (ctx : Ctx) (js : JSchain) : Ctx × JSchain :=
  if js.keep then (ClientContext.addTask takes ctx js.statement, { js with keep := false })
  else (ctx, js)

/-- JSchain.execExpression, the implicit flush. When the Concurrency Guard is
held, the source runs `self._addTask(stmt)`; JSchain defines no `_addTask`
attribute, so `__getattr__` routes the name through getdata (appending
"._addTask" to the chain) and the call appends the JSON-encoded argument —
nothing reaches the task queue. Otherwise the chain is evaluated
synchronously, marking it flushed even when the evaluation raises. -/
def JSchain.execExpression (env : EvalEnv) (ctx : Ctx) (js : JSchain) :
    Ctx × JSchain × Except PyErr Unit :=
  if js.keep then
    let stmt := js.statement
    if ctx.lockHeld then
      let js1 := (js.getdata ("_addTask".data) true).call [.jstr stmt]
      (ctx, { js1 with keep := false }, .ok ())
    else
      match js.evalChain env ctx with
      | (c, j, .ok _) => (c, { j with keep := false }, .ok ())
      | (c, j, .error e) => (c, { j with keep := false }, .error e)
  else (ctx, js, .ok ())

/-- JSchain.__del__: a chain still pending at destruction is flushed through
execExpression; an exception is stashed in the session error slot and
re-raised (into the ignoring caller). -/
def JSchain.del (env : EvalEnv) (ctx : Ctx) (js : JSchain) :
    Ctx × JSchain × Except PyErr Unit :=
  if js.keep = false then (ctx, js, .ok ())
  else
    match js.execExpression env ctx with
    | (c, j, .ok ()) => (c, j, .ok ())
    | (c, j, .error e) => ({ c with errorSlot := some e }, j, .error e)

/-- JSchain.__getitem__: evaluate the membership check `'key' in chain`
synchronously on a duplicate of the chain; raise KeyError when absent;
otherwise evaluate `chain['key']` synchronously and return its value.
`env1` drives the membership evaluation and `env2` the value evaluation. -/
def JSchain.getitem (env1 env2 : EvalEnv) (ctx : Ctx) (js : JSchain) (key : Str) :
    Ctx × JSchain × Except PyErr JVal :=
  let c := js._dup._prepend ('\x27' :: key ++ "\x27 in ".data)
  match c.evalChain env1 ctx with
  | (ctx1, _, .error e) => (ctx1, js, .error e)
  | (ctx1, _, .ok haskey) =>
      if truthy haskey = false then (ctx1, js, .error (.keyError (.jstr key)))
      else (js.getdata ("[\x27".data ++ key ++ "\x27]".data) false).evalChain env2 ctx1

/-- JSchain.__setitem__: append a bracketed-key assignment and flush through
execExpression immediately. -/
def JSchain.setitem (env : EvalEnv) (ctx : Ctx) (js : JSchain) (key : Str) (value : JVal) :
    Ctx × JSchain × Except PyErr Unit :=
  (js.setdata ("[\x27".data ++ key ++ "\x27]".data) value false).execExpression env ctx

/-- JSroot.__getattr__: re-raise (and clear) any deferred session error, then
start a fresh one-fragment chain. -/
def JSroot.getattr (ctx : Ctx) (attr : Str) : Ctx × Except PyErr JSchain :=
  match ctx.errorSlot with
  | some e => ({ ctx with errorSlot := none }, .error e)
  | none => (ctx, .ok ((JSchain.mk [] true)._add attr true))

/-- JSroot.__setattr__ for a non-callable value: create the chain through
__getattr__ (which surfaces deferred errors), append `=<json value>` via
setdata with a None attribute, and flush through execExpression. -/
def JSroot.setattr (env : EvalEnv) (ctx : Ctx) (attr : Str) (value : JVal) :
    Ctx × Except PyErr Unit :=
  match JSroot.getattr ctx attr with
  | (c1, .error e) => (c1, .error e)
  | (c1, .ok js) =>
      match (js.setdata [] value true).execExpression env c1 with
      | (c2, _, r) => (c2, r)

/-- A backend callable, modelled as a pure function from the argument list to
a value or a raised exception (given by CPython type name and message).
Mutation of the app object by the callable is outside this model. -/
abbrev PyFun : Type := List JVal → Except (Str × Str) JVal

/-- An attribute of the backend application object. -/
inductive PyAttr where
  | callable (f : PyFun)
  | plain (v : JVal)

/-- The backend application object: its attribute dictionary. -/
structure AppObj where
  attrs : List (Str × PyAttr)

/-- Observable lock and invocation events of ClientContext.run/get/set. -/
inductive Event where
  | acquire
  | release
  | invoke (name : Str)
  | readAttr (name : Str)
  | writeAttr (name : Str)

/-- The guard discipline the spec asserts: every invocation/attribute event
happens while the lock is held, and the lock is free again at the end. -/
def heldDuring : Nat → List Event → Bool
  | d, [] => d = 0
  | d, .acquire :: r => heldDuring (d + 1) r
  | d, .release :: r => decide (0 < d) && heldDuring (d - 1) r
  | d, .invoke _ :: r => decide (0 < d) && heldDuring d r
  | d, .readAttr _ :: r => decide (0 < d) && heldDuring d r
  | d, .writeAttr _ :: r => decide (0 < d) && heldDuring d r

/-- Guard discipline of a whole trace, starting with the lock free. -/
def guardDiscipline (tr : List Event) : Bool := heldDuring 0 tr

/-- What ClientContext.run resolved to invoke: a callable with its arguments,
or a truthy non-callable attribute (whose call raises TypeError), or nothing. -/
inductive Resolved where
  | fn (f : PyFun) (args : List JVal)
  | notCallable (v : JVal)
  | missing

/-- Function resolution inside ClientContext.run. `_callfxn` pops the registry
id off the argument list; the `callable(function)` branch of the source can
never fire for a name decoded from JSON and is not represented; otherwise the
app object's attribute is used when present and truthy, with a falsy or
missing attribute falling through to the "Unsupported" reply. -/
def resolveF (obj : AppObj) (fxn : List (Int × PyFun)) (function : Str)
    (args : List JVal) : Except PyErr Resolved :=
  if function = "_callfxn".data then
    match args with
    | [] => .error (.indexError "pop from empty list".data)
    | a :: rest =>
        match a with
        | .jnum i =>
            match alookup fxn i with
            | some f => .ok (.fn f rest)
            | none => .error (.keyError (.jnum i))
        | .jbool b =>
            match alookup fxn (if b then 1 else 0) with
            | some f => .ok (.fn f rest)
            | none => .error (.keyError (.jbool b))
        | .jarr _ => .error (.typeError "unhashable type: \x27list\x27".data)
        | .jobj _ => .error (.typeError "unhashable type: \x27dict\x27".data)
        | v => .error (.keyError v)
  else
    match alookup obj.attrs function with
    | some (.callable f) => .ok (.fn f args)
    | some (.plain v) => if truthy v then .ok (.notCallable v) else .ok .missing
    | none => .ok .missing

/-- `json.dumps({"value": v})`. -/
def jsonValObj (v : JVal) : Str := "\x7b\"value\": ".data ++ jdumps v ++ "\x7d".data

/-- `json.dumps({"error": s})`. -/
def jsonErrObj (s : Str) : Str := "\x7b\"error\": ".data ++ jstrDumps s ++ "\x7d".data

/-- The reply of the "Unsupported" branch of ClientContext.run. -/
def unsupportedReply (function : Str) (args : List JVal) : Str :=
  jsonErrObj ("Unsupported: ".data ++ function ++ "(".data ++ pyRepr (.jarr args) ++ ")".data)

/-- Result of ClientContext.run: its trace, the lock state it leaves behind,
and the returned reply string or the exception it raises. -/
structure RunOut where
  events : List Event
  lockAfter : Bool
  result : Except PyErr Str

/-- ClientContext.run. With block=True the guard is acquired non-blocking
(raising RuntimeError when already held) and released in a finally block;
invocation failures are encoded as an `error` reply, never raised; an unknown
function name yields the "Unsupported: name(args)" error reply. -/
def ClientContext.run (obj : AppObj) (fxn : List (Int × PyFun)) (lockHeld : Bool)
    (function : Str) (args : List JVal) (block : Bool) : RunOut :=
  if block ∧ lockHeld then
    ⟨[], lockHeld, .error (.runtimeError "App is active and would block".data)⟩
  else
    let acq : List Event := if block then [.acquire] else []
    let rel : List Event := if block then [.release] else []
    let after : Bool := if block then false else lockHeld
    match resolveF obj fxn function args with
    | .error e => ⟨acq ++ rel, after, .error e⟩
    | .ok .missing => ⟨acq ++ rel, after, .ok (unsupportedReply function args)⟩
    | .ok (.notCallable v) =>
        ⟨acq ++ [.invoke function] ++ rel, after,
         .ok (jsonErrObj ("TypeError: \x27".data ++ pyTypeName v ++
              "\x27 object is not callable".data))⟩
    | .ok (.fn f as) =>
        match f as with
        | .ok v => ⟨acq ++ [.invoke function] ++ rel, after, .ok (jsonValObj v)⟩
        | .error (en, em) =>
            ⟨acq ++ [.invoke function] ++ rel, after,
             .ok (jsonErrObj (en ++ ": ".data ++ em))⟩

/-- The client-side wrapper expression ClientContext.get returns for a
callable property. -/
def handleAppExpr (expr : Str) : Str :=
  "(function(...args) \x7b return handleApp(\x27".data ++ expr ++
  "\x27, args) \x7d)".data

/-- Result of ClientContext.get. -/
structure GetOut where
  events : List Event
  lockAfter : Bool
  result : Except PyErr (Option Str)

/-- ClientContext.get: acquires the guard non-blocking (raising RuntimeError
when held), reads the property (a callable yields a wrapper expression, a
plain value is JSON-encoded, a missing name yields a None reply), and
releases the guard in a finally block. -/
def ClientContext.get (obj : AppObj) (lockHeld : Bool) (expr : Str) : GetOut :=
  if lockHeld then
    ⟨[], lockHeld, .error (.runtimeError "App is active and would block".data)⟩
  else
    match alookup obj.attrs expr with
    | some (.callable _) =>
        ⟨[.acquire, .readAttr expr, .release], false,
         .ok (some ("\x7b\"type\": \"expression\", \"expression\": ".data ++
            jstrDumps (handleAppExpr expr) ++ "\x7d".data))⟩
    | some (.plain v) =>
        ⟨[.acquire, .readAttr expr, .release], false,
         .ok (some ("\x7b\"type\": \"value\", \"value\": ".data ++ jdumps v ++ "\x7d".data))⟩
    | none => ⟨[.acquire, .release], false, .ok none⟩

/-- Result of ClientContext.set. -/
structure SetOut where
  events : List Event
  lockAfter : Bool
  obj : AppObj
  returned : JVal

/-- ClientContext.set: writes the property on the app object directly.
The Concurrency Guard is never touched. -/
def ClientContext.set (obj : AppObj) (lockHeld : Bool) (expr : Str) (value : JVal) : SetOut :=
  ⟨[.writeAttr expr], lockHeld, ⟨aset obj.attrs expr (.plain value)⟩, value⟩

/-- Process-wide page state (HtmlPage.pageMap and HtmlPage.pageActive) plus
the session context a request is dispatched to. Timestamps are integers in
the time units of the Python code. -/
structure World where
  pageMap : List (Str × Str)
  pageActive : List (Str × Int)
  ctx : Ctx

/-- HtmlPage.expire: drop the explicitly named page, then sweep every page
whose last activity is older than 5 time units before `now`. -/
def HtmlPage.expire (now : Int) (item : Option Str) (pa : List (Str × Int))
    (pm : List (Str × Str)) : List (Str × Int) × List (Str × Str) :=
  let pa1 := match item with | some k => adel pa k | none => pa
  let pm1 := match item with | some k => adel pm k | none => pm
  let stale := (pa1.filter (fun kv => kv.2 < now - 5)).map (fun kv => kv.1)
  (pa1.filter (fun kv => ¬ kv.2 < now - 5), pm1.filter (fun kv => kv.1 ∉ stale))

/-- Result of ClientContext.processCommand: the updated world and app object,
and the HTTP reply body (None when the source returns Python None) or the
exception that escapes into the request-handling thread. -/
structure PCOut where
  w : World
  obj : AppObj
  resp : Except PyErr (Option Str)

/-- Dispatch of one inbound request (ClientContext.processCommand) after the
page id was validated: `t` is the task string. The long-poll `next` branch is
rendered sequentially: it pops the queue head, or reports no task after its
5-unit wait on an empty queue. Request shapes the bootstrap client never
produces (non-string function or property names, non-array argument lists)
are mapped to a TypeError and are not modelled further. -/
def processTask (now : Int) (w : World) (obj : AppObj) (fxn : List (Int × PyFun))
    (req : Req) (p : Str) (t : Str) : PCOut :=
  if t = "state".data then
    match alookup req ("query".data) with
    | none => ⟨w, obj, .error (.keyError (.jstr "query".data))⟩
    | some qv =>
        match ClientContext.getQuery w.ctx qv, qv with
        | .error e, _ => ⟨w, obj, .error e⟩
        | .ok entry, .jnum n =>
            ⟨{ w with ctx := { w.ctx with queries := aset w.ctx.queries n (entry ++ [req]) } },
             obj, .ok (some (pyReprDict req))⟩
        | .ok entry, .jbool b =>
            ⟨{ w with ctx := { w.ctx with
                queries := aset w.ctx.queries (if b then 1 else 0) (entry ++ [req]) } },
             obj, .ok (some (pyReprDict req))⟩
        | .ok _, _ => ⟨w, obj, .ok (some (pyReprDict req))⟩
  else if t = "run".data ∨ t = "async".data then
    match alookup req ("function".data) with
    | none => ⟨w, obj, .error (.keyError (.jstr "function".data))⟩
    | some fv =>
        match alookup req ("args".data) with
        | none => ⟨w, obj, .error (.keyError (.jstr "args".data))⟩
        | some av =>
            match fv, av with
            | .jstr f, .jarr as =>
                let r := ClientContext.run obj fxn w.ctx.lockHeld f as (t = "run".data)
                ⟨{ w with ctx := { w.ctx with lockHeld := r.lockAfter } }, obj,
                 r.result.map some⟩
            | _, _ => ⟨w, obj, .error (.typeError
                "request shape not produced by the bootstrap client".data)⟩
  else if t = "get".data then
    match alookup req ("expression".data) with
    | none => ⟨w, obj, .error (.keyError (.jstr "expression".data))⟩
    | some (.jstr e) =>
        let r := ClientContext.get obj w.ctx.lockHeld e
        ⟨{ w with ctx := { w.ctx with lockHeld := r.lockAfter } }, obj, r.result⟩
    | some _ => ⟨w, obj, .error (.typeError
        "request shape not produced by the bootstrap client".data)⟩
  else if t = "set".data then
    match alookup req ("property".data) with
    | none => ⟨w, obj, .error (.keyError (.jstr "property".data))⟩
    | some pv =>
        match alookup req ("value".data) with
        | none => ⟨w, obj, .error (.keyError (.jstr "value".data))⟩
        | some v =>
            match pv with
            | .jstr e =>
                let r := ClientContext.set obj w.ctx.lockHeld e v
                ⟨{ w with ctx := { w.ctx with lockHeld := r.lockAfter } }, r.obj,
                 .ok (some [])⟩
            | _ => ⟨w, obj, .error (.typeError
                "request shape not produced by the bootstrap client".data)⟩
  else if t = "next".data then
    match w.ctx.tasks with
    | [] => ⟨w, obj, .ok none⟩
    | tk :: rest => ⟨{ w with ctx := { w.ctx with tasks := rest } }, obj, .ok tk⟩
  else if t = "error".data then
    ⟨w, obj, .ok (some [])⟩
  else if t = "unload".data then
    let pr := HtmlPage.expire now (some p) w.pageActive w.pageMap
    let c2 := { w.ctx with tasks := w.ctx.tasks ++ [none] }
    ⟨{ pageMap := pr.2, pageActive := pr.1, ctx := c2 }, obj, .ok (some [])⟩
  else ⟨w, obj, .ok none⟩

/-- ClientContext.processCommand: resolve the page id against the page map
(an unknown id yields the "Invalid pageid session" reply; a non-string id
takes CPython type-error paths), record page activity, set the context's uid,
then dispatch on the task field. A request whose task is not one of the
protocol strings falls through returning None. -/
def ClientContext.processCommand (now : Int) (w : World) (obj : AppObj)
    (fxn : List (Int × PyFun)) (req : Req) : PCOut :=
  match alookup req ("session".data) with
  | none => ⟨w, obj, .error (.keyError (.jstr "session".data))⟩
  | some pv =>
      match pv with
      | .jstr p =>
          match alookup w.pageMap p with
          | none => ⟨w, obj, .ok (some ("Invalid pageid session: ".data ++ p))⟩
          | some u =>
              let w1 := { w with pageActive := aset w.pageActive p now, ctx := { w.ctx with uid := u } }
              match alookup req ("task".data) with
              | none => ⟨w1, obj, .error (.keyError (.jstr "task".data))⟩
              | some (.jstr t) => processTask now w1 obj fxn req p t
              | some _ => ⟨w1, obj, .ok none⟩
      | .jarr _ => ⟨w, obj, .error (.typeError "unhashable type: \x27list\x27".data)⟩
      | .jobj _ => ⟨w, obj, .error (.typeError "unhashable type: \x27dict\x27".data)⟩
      | v => ⟨w, obj, .error (.typeError
          ("can only concatenate str (not \"".data ++ pyTypeName v ++ "\") to str".data))⟩

/-- ASCII lower-casing, the case folding of `re.IGNORECASE` on byte patterns. -/
def lowerChar (c : Char) : Char :=
  if 'A' ≤ c ∧ c ≤ 'Z' then Char.ofNat (c.toNat + 32) else c

/-- Does the case-insensitive literal `pat` occur at the head of `s`? -/
def startsWithCI (pat s : Str) : Bool :=
  ((s.take pat.length).map lowerChar) = pat.map lowerChar

/-- Leftmost match position of a case-insensitive literal (re `search`). -/
def findCI (pat : Str) : Str → Nat → Option Nat
  | [], _ => none
  | c :: rest, i =>
      if startsWithCI pat (c :: rest) then some i else findCI pat rest (i + 1)

/-- Whitespace characters of the `\s` class. -/
def wsChar (c : Char) : Bool :=
  c = ' ' ∨ c = '\t' ∨ c = '\n' ∨ c = '\r' ∨ c = '\x0b' ∨ c = '\x0c'

/-- Does `\s+src\s*=\s*"appscript.js"` match at the head of `l`? The literal
pieces start with non-whitespace, so each whitespace run is consumed
maximally without loss of generality. -/
def srcTail (l : Str) : Bool :=
  let r1 := l.dropWhile wsChar
  decide (l.takeWhile wsChar ≠ []) &&
  decide (r1.take 3 = "src".data) &&
  (let r3 := (r1.drop 3).dropWhile wsChar
   match r3 with
   | '=' :: r4 =>
       let r5 := r4.dropWhile wsChar
       decide (r5.take ("\"appscript.js\"".data.length) = "\"appscript.js\"".data)
   | _ => false)

/-- Does `.*\s+src\s*=\s*"appscript.js"` match at the head of `l`?
The `.*` may consume any characters except a newline. -/
def dotStarThen : Str → Bool
  | [] => srcTail []
  | c :: r => srcTail (c :: r) || (decide (c ≠ '\n') && dotStarThen r)

/-- Does HtmlPage._pscript — the case-sensitive pattern
`<script.*\s+src\s*=\s*"appscript.js"` — match starting at the head of `s`? -/
def pscriptAt (s : Str) : Bool :=
  decide (s.take 7 = "<script".data) && dotStarThen (s.drop 7)

/-- Leftmost match position of HtmlPage._pscript (re `search`). -/
def pscriptSearch : Str → Nat → Option Nat
  | [], _ => none
  | c :: rest, i =>
      if pscriptAt (c :: rest) then some i else pscriptSearch rest (i + 1)

/-- The page-variable prelude
`"var UID='{}';var PAGEID='{}';\n".format(uid, self.pageid)`. -/
def uidScript (uid pageid : Str) : Str :=
  "var UID=\x27".data ++ uid ++ "\x27;var PAGEID=\x27".data ++ pageid ++ "\x27;\n".data

/-- The case-insensitive literal `{{JSCRIPT}}` placeholder pattern. -/
def jscriptPat : Str := "\x7b\x7bJSCRIPT\x7d\x7d".data

/-- HtmlPage.insertJS, string part. First the case-sensitive bootstrap-file
pattern: when a script tag already references appscript.js, only a script
block with the page variables is inserted before it and the bootstrap is left
to be served separately. Otherwise the first matching pattern of _plist
decides: a {{JSCRIPT}} placeholder is replaced by variables + bootstrap; a
block is inserted immediately before an existing `<script>` or before
`</head>`; on `<body>` or `<html>` a synthesized `<head><script>…` block is
inserted at the match position and the entire original document follows; with
no match at all the whole document is prefixed by the synthesized block. -/
def HtmlPage.insertJS (uid pageid jscript html : Str) : Str :=
  let U := uidScript uid pageid
  match pscriptSearch html 0 with
  | some sx => html.take sx ++ "<script>".data ++ U ++ "</script>".data ++ html.drop sx
  | none =>
      match findCI jscriptPat html 0 with
      | some sx => html.take sx ++ U ++ jscript ++ html.drop (sx + jscriptPat.length)
      | none =>
          match findCI ("<script>".data) html 0 with
          | some sx =>
              html.take sx ++ "<script>".data ++ U ++ jscript ++ "</script>".data ++
                html.drop sx
          | none =>
              match findCI ("</head>".data) html 0 with
              | some sx =>
                  html.take sx ++ "<script>".data ++ U ++ jscript ++ "</script>".data ++
                    html.drop sx
              | none =>
                  match findCI ("<body>".data) html 0 with
                  | some sx =>
                      html.take sx ++ "<head><script>".data ++ U ++ jscript ++
                        "</script></head>".data ++ html
                  | none =>
                      match findCI ("<html>".data) html 0 with
                      | some sx =>
                          html.take sx ++ "<head><script>".data ++ U ++ jscript ++
                            "</script></head>".data ++ html
                      | none =>
                          "<head><script>".data ++ U ++ jscript ++
                            "</script></head>".data ++ html

/-- HtmlPage.insertJS including its registration side effects: the page is
recorded in pageMap under its owning session and touched in pageActive. -/
def HtmlPage.insertJSFull (now : Int) (pm : List (Str × Str)) (pa : List (Str × Int))
    (uid pageid jscript html : Str) :
    List (Str × Str) × List (Str × Int) × Str :=
  (aset pm pageid uid, aset pa pageid now, HtmlPage.insertJS uid pageid jscript html)

/-- The queue shrinks pointwise: every later observation window of addTask
holds a suffix of the initial queue. -/
theorem queueAt_nil (takes : Nat → Nat) (k : Nat) : queueAt takes [] k = [] := by
  induction k with
  | zero => rfl
  | succ k ih => simp [queueAt, ih]

/-- Shifting the drain schedule by one attempt advances the observation
window by one. -/
theorem queueAt_shift (takes : Nat → Nat) (q : List (Option Str)) (k : Nat) :
    queueAt (fun j => takes (j + 1)) (q.drop (takes 0)) k = queueAt takes q (k + 1) := by
  induction k with
  | zero => rfl
  | succ k ih => simp only [queueAt, ih]

/-- If every attempt of the retry loop sees a full queue, the loop ends with
the final observation window and a TimeoutError, and the statement is not
enqueued. -/
theorem addTaskLoop_full (stmt : Str) (n : Nat) :
    ∀ (takes : Nat → Nat) (q : List (Option Str)),
      (∀ k, k < n → 5 ≤ (queueAt takes q k).length) →
      addTaskLoop stmt n takes q =
        (queueAt takes q n, some (.timeoutError ("Timeout inserting task: ".data ++ stmt))) := by
  induction n with
  | zero => intro takes q _; rfl
  | succ n ih =>
      intro takes q h
      have h0 : ¬ q.length < 5 := by
        have := h 0 (Nat.succ_pos n)
        simpa [queueAt] using Nat.not_lt.mpr this
      have step := ih (fun j => takes (j + 1)) (q.drop (takes 0)) (by
        intro k hk
        rw [queueAt_shift]
        exact h (k + 1) (Nat.succ_lt_succ hk))
      simp only [addTaskLoop, if_neg h0, step, queueAt_shift]

/-- If attempt `k` is the first whose observation window holds fewer than 5
tasks, the retry loop enqueues the statement at that window. -/
theorem addTaskLoop_first (stmt : Str) (n : Nat) :
    ∀ (takes : Nat → Nat) (q : List (Option Str)) (k : Nat),
      k < n →
      (∀ j, j < k → 5 ≤ (queueAt takes q j).length) →
      (queueAt takes q k).length < 5 →
      addTaskLoop stmt n takes q = (queueAt takes q k ++ [some stmt], none) := by
  induction n with
  | zero => intro takes q k hk; exact absurd hk (Nat.not_lt_zero k)
  | succ n ih =>
      intro takes q k hk hmin hlt
      cases k with
      | zero =>
          have : q.length < 5 := by simpa [queueAt] using hlt
          simp only [addTaskLoop, if_pos this]
          simp [queueAt]
      | succ k =>
          have h0 : ¬ q.length < 5 := by
            have := hmin 0 (Nat.succ_pos k)
            simpa [queueAt] using Nat.not_lt.mpr this
          have step := ih (fun j => takes (j + 1)) (q.drop (takes 0)) k
            (Nat.lt_of_succ_lt_succ hk)
            (by
              intro j hj
              rw [queueAt_shift]
              exact hmin (j + 1) (Nat.succ_lt_succ hj))
            (by rw [queueAt_shift]; exact hlt)
          simp only [addTaskLoop, if_neg h0, step, queueAt_shift]

/-- C2 counterexample context: a session whose queue already holds 5 pending
statements and whose consumer never drains. -/
def ctxFullC2 : Ctx :=
  ⟨"u".data,
   [some ("t1".data), some ("t2".data), some ("t3".data), some ("t4".data), some ("t5".data)],
   [], 0, false, none⟩

/-- C2: the claim "addTask blocks the producer until the consumer drains
below the threshold, and no statement passed to addTask is ever dropped" is
false: with the queue full and no consumer, the 10 retry attempts expire, the
statement is never placed on the queue, and a TimeoutError is recorded in the
session error slot instead. -/
theorem addTask_drops_counterexample :
    (ClientContext.addTask (fun _ => 0) ctxFullC2 ("s".data)).tasks = ctxFullC2.tasks ∧
    some ("s".data) ∉ (ClientContext.addTask (fun _ => 0) ctxFullC2 ("s".data)).tasks ∧
    (ClientContext.addTask (fun _ => 0) ctxFullC2 ("s".data)).errorSlot =
      some (.timeoutError ("Timeout inserting task: s".data)) := by
  refine ⟨rfl, by decide, rfl⟩

/-- C2 (amended): addTask polls the queue up to 10 times, 0.1 time units
apart; the statement is appended at the first attempt that observes fewer
than 5 pending tasks; if all 10 attempts observe a full queue the statement
is dropped and a TimeoutError is recorded in the session error slot (nothing
is raised to the caller). -/
theorem addTask_amended (takes : Nat → Nat) (ctx : Ctx) (stmt : Str) :
    (∃ k, k < 10 ∧ (∀ j, j < k → 5 ≤ (queueAt takes ctx.tasks j).length) ∧
        (queueAt takes ctx.tasks k).length < 5 ∧
        ClientContext.addTask takes ctx stmt =
          { ctx with tasks := queueAt takes ctx.tasks k ++ [some stmt] }) ∨
    ((∀ k, k < 10 → 5 ≤ (queueAt takes ctx.tasks k).length) ∧
        ClientContext.addTask takes ctx stmt =
          { ctx with tasks := queueAt takes ctx.tasks 10, errorSlot := some (.timeoutError ("Timeout inserting task: ".data ++ stmt)) }) := by
  by_cases h : ∀ k, k < 10 → 5 ≤ (queueAt takes ctx.tasks k).length
  · right
    refine ⟨h, ?_⟩
    unfold ClientContext.addTask
    rw [addTaskLoop_full stmt 10 takes ctx.tasks h]
  · left
    push_neg at h
    obtain ⟨k0, hk0, hlt0⟩ := h
    have hex : ∃ k, (queueAt takes ctx.tasks k).length < 5 := ⟨k0, hlt0⟩
    classical
    refine ⟨Nat.find hex, ?_, ?_, Nat.find_spec hex, ?_⟩
    · exact Nat.lt_of_le_of_lt (Nat.find_min' hex hlt0) hk0
    · intro j hj
      exact Nat.le_of_not_lt (Nat.find_min hex hj)
    · unfold ClientContext.addTask
      rw [addTaskLoop_first stmt 10 takes ctx.tasks (Nat.find hex)
        (Nat.lt_of_le_of_lt (Nat.find_min' hex hlt0) hk0)
        (fun j hj => Nat.le_of_not_lt (Nat.find_min hex hj))
        (Nat.find_spec hex)]

/-- C2 witness: on an idle session with an empty queue the statement is
enqueued by the first attempt. -/
theorem addTask_amended_witness :
    (ClientContext.addTask (fun _ => 0) ⟨"u".data, [], [], 0, false, none⟩ ("s".data)).tasks =
      [some ("s".data)] := by
  rcases addTask_amended (fun _ => 0) ⟨"u".data, [], [], 0, false, none⟩ ("s".data) with
    ⟨k, _, _, _, heq⟩ | ⟨hall, _⟩
  · rw [heq]
    simp [queueAt_nil]
  · have := hall 0 (by decide)
    simp [queueAt] at this

/-- C1: evaluating the source at the failing input. A pending chain `a`
implicitly flushed while the Concurrency Guard is held leaves the task queue
and the Pending-Query Table untouched and raises nothing; the nonexistent
method name `_addTask` and the JSON-encoded statement are merely appended to
the dying chain. The spec (and the branch's own comment, "running within a
query, so just run it async") expects the statement to be enqueued, as
JSchain.evalAsync does with `self.state.addTask(stmt)`. -/
theorem execExpression_locked_drops_statement :
    (JSchain.execExpression ⟨fun _ => 0, none⟩ ⟨"u".data, [], [], 0, true, none⟩
        ⟨["a".data], true⟩).1.tasks = [] ∧
    (JSchain.execExpression ⟨fun _ => 0, none⟩ ⟨"u".data, [], [], 0, true, none⟩
        ⟨["a".data], true⟩).1.queries = [] ∧
    (JSchain.execExpression ⟨fun _ => 0, none⟩ ⟨"u".data, [], [], 0, true, none⟩
        ⟨["a".data], true⟩).2.1.chain =
      ["a".data, ".".data, "_addTask".data, "(\"a\")".data] ∧
    (JSchain.execExpression ⟨fun _ => 0, none⟩ ⟨"u".data, [], [], 0, true, none⟩
        ⟨["a".data], true⟩).2.2 = .ok () := by
  refine ⟨rfl, rfl, by decide, rfl⟩

/-- C7: evaluating the source at the failing input. After a fully successful
synchronous evaluation (the browser replies value 5 for query id 7 and the
result is read), the query is still present in the Pending-Query Table,
because delQuery only reads `self.queries[query]` and removes nothing —
contradicting its own name and doc string ("Delete query") and the spec. -/
theorem delQuery_leaves_query_registered :
    (JSchain.evalChain ⟨fun _ => 0, some (0, ⟨some (.jnum 5), []⟩)⟩
        ⟨"u".data, [], [], 7, false, none⟩ ⟨["x".data], true⟩).2.2 = .ok (.jnum 5) ∧
    (JSchain.evalChain ⟨fun _ => 0, some (0, ⟨some (.jnum 5), []⟩)⟩
        ⟨"u".data, [], [], 7, false, none⟩ ⟨["x".data], true⟩).1.queries = [(7, [])] ∧
    ClientContext.delQuery
      (JSchain.evalChain ⟨fun _ => 0, some (0, ⟨some (.jnum 5), []⟩)⟩
        ⟨"u".data, [], [], 7, false, none⟩ ⟨["x".data], true⟩).1 7 = .ok [] := by
  refine ⟨rfl, rfl, rfl⟩

/-- With capacity available at the first attempt, addTask appends the
statement immediately, regardless of the drain schedule. -/
theorem addTask_quick (takes : Nat → Nat) (ctx : Ctx) (stmt : Str)
    (h : ctx.tasks.length < 5) :
    ClientContext.addTask takes ctx stmt = { ctx with tasks := ctx.tasks ++ [some stmt] } := by
  unfold ClientContext.addTask
  have h10 : (10 : Nat) = 9 + 1 := rfl
  rw [h10]
  simp only [addTaskLoop, if_pos h]

/-- A synchronous evaluation of a pending chain with the guard free and the
queue below threshold, fully unfolded: the fresh query id is registered, the
wrapper statement is enqueued, and the outcome is decided by the arrival of
the browser reply within the timeout. -/
theorem evalTimed_shape (env : EvalEnv) (timeout : Nat) (ctx : Ctx) (js : JSchain)
    (hk : js.keep = true) (hl : ctx.lockHeld = false) (hq : ctx.tasks.length < 5) :
    JSchain.evalTimed env timeout ctx js =
      ({ ctx with lockHeld := false, queries := ctx.queries ++ [(ctx.nextId, [])], nextId := ctx.nextId + 1, tasks := ctx.tasks ++ [some (sendWrapper js.statement ctx.nextId)] },
       { js with keep := false },
       match env.arrival with
       | none => .error (.timeoutError ("Timout waiting on: ".data ++ js.statement))
       | some (t, r) =>
           if t ≤ timeout then
             if r.error = [] then
               match r.value with
               | some v => .ok v
               | none => .ok (.jnum 0)
             else .error (.runtimeError (r.error ++ ": ".data ++ js.statement))
           else .error (.timeoutError ("Timout waiting on: ".data ++ js.statement))) := by
  have hadd := addTask_quick env.takes
    { ctx with lockHeld := false, queries := ctx.queries ++ [(ctx.nextId, [])], nextId := ctx.nextId + 1 }
    (sendWrapper js.statement ctx.nextId) (by simpa using hq)
  unfold JSchain.evalTimed
  simp only [hk, hl]
  rw [if_neg (by simp : ¬ ((true : Bool) = false)), if_neg (by simp : ¬ ((false : Bool) = true))]
  rw [hadd]
  rcases env.arrival with _ | ⟨t, r⟩
  · rfl
  · obtain ⟨rv, re⟩ := r
    by_cases ht : t ≤ timeout
    · by_cases hre : re = []
      · subst hre
        rcases rv with _ | v
        · simp [if_pos ht]
        · simp [if_pos ht]
      · simp [if_pos ht, if_neg hre]
    · simp [if_neg ht]

/-- C5: a value-consuming (synchronous) evaluation of a pending chain, with
the guard free and the task queue below its threshold, registers a fresh
query id in the Pending-Query Table and enqueues the
sendFromBrowserToServer wrapper naming that id and the JSON-encoded
statement; the default timeout is 10 time units, and if no reply arrives
within the bound a TimeoutError is raised. -/
theorem eval_sync_protocol (env : EvalEnv) (ctx : Ctx) (js : JSchain)
    (hk : js.keep = true) (hl : ctx.lockHeld = false) (hq : ctx.tasks.length < 5) :
    (JSchain.evalChain env ctx js).1.queries = ctx.queries ++ [(ctx.nextId, [])] ∧
    (JSchain.evalChain env ctx js).1.tasks =
      ctx.tasks ++ [some (sendWrapper js.statement ctx.nextId)] ∧
    evalDefaultTimeout = 10 ∧
    (env.arrival = none →
      (JSchain.evalChain env ctx js).2.2 =
        .error (.timeoutError ("Timout waiting on: ".data ++ js.statement))) ∧
    (∀ t r, env.arrival = some (t, r) → 10 < t →
      (JSchain.evalChain env ctx js).2.2 =
        .error (.timeoutError ("Timout waiting on: ".data ++ js.statement))) := by
  unfold JSchain.evalChain
  rw [evalTimed_shape env evalDefaultTimeout ctx js hk hl hq]
  refine ⟨rfl, rfl, rfl, ?_, ?_⟩
  · intro ha
    rw [ha]
  · intro t r ha ht
    rw [ha]
    have : ¬ t ≤ evalDefaultTimeout := Nat.not_le.mpr (by simpa [evalDefaultTimeout] using ht)
    simp only [this, reduceIte]

/-- C5 witness: a concrete pending chain on an idle session, with no browser
reply, registers query id 0, enqueues the wrapper, and times out. -/
theorem eval_sync_protocol_witness :
    (JSchain.evalChain ⟨fun _ => 0, none⟩ ⟨"u".data, [], [], 0, false, none⟩
        ⟨["a".data], true⟩).1.queries = [(0, [])] ∧
    (JSchain.evalChain ⟨fun _ => 0, none⟩ ⟨"u".data, [], [], 0, false, none⟩
        ⟨["a".data], true⟩).1.tasks =
      [some ("sendFromBrowserToServer(\"a\", 0)".data)] ∧
    (JSchain.evalChain ⟨fun _ => 0, none⟩ ⟨"u".data, [], [], 0, false, none⟩
        ⟨["a".data], true⟩).2.2 =
      .error (.timeoutError ("Timout waiting on: a".data)) := by
  have h := eval_sync_protocol ⟨fun _ => 0, none⟩ ⟨"u".data, [], [], 0, false, none⟩
    ⟨["a".data], true⟩ rfl rfl (by decide)
  refine ⟨?_, ?_, ?_⟩
  · rw [h.1]
    rfl
  · rw [h.2.1]
    rfl
  · rw [h.2.2.2.1 rfl]
    rfl

/-- getdata never changes the pending flag. -/
theorem getdata_keep (js : JSchain) (a : Str) (b : Bool) :
    (JSchain.getdata js a b).keep = js.keep := by
  simp only [JSchain.getdata, JSchain._add]
  split_ifs <;> rfl

/-- The context after any below-threshold synchronous evaluation: the wrapper
is the next task. -/
theorem evalTimed_tasks (env : EvalEnv) (timeout : Nat) (ctx : Ctx) (js : JSchain)
    (hk : js.keep = true) (hl : ctx.lockHeld = false) (hq : ctx.tasks.length < 5) :
    (JSchain.evalTimed env timeout ctx js).1.tasks =
      ctx.tasks ++ [some (sendWrapper js.statement ctx.nextId)] := by
  rw [evalTimed_shape env timeout ctx js hk hl hq]

/-- The context after any below-threshold synchronous evaluation: the fresh
query id is the next registered. -/
theorem evalTimed_queries (env : EvalEnv) (timeout : Nat) (ctx : Ctx) (js : JSchain)
    (hk : js.keep = true) (hl : ctx.lockHeld = false) (hq : ctx.tasks.length < 5) :
    (JSchain.evalTimed env timeout ctx js).1.queries = ctx.queries ++ [(ctx.nextId, [])] := by
  rw [evalTimed_shape env timeout ctx js hk hl hq]

/-- A synchronous evaluation whose reply arrives in time with no error
returns the replied value. -/
theorem evalTimed_res_ok (env : EvalEnv) (timeout : Nat) (ctx : Ctx) (js : JSchain)
    (t : Nat) (r : StateRes) (v : JVal)
    (hk : js.keep = true) (hl : ctx.lockHeld = false) (hq : ctx.tasks.length < 5)
    (ha : env.arrival = some (t, r)) (ht : t ≤ timeout) (hr : r.error = [])
    (hv : r.value = some v) :
    (JSchain.evalTimed env timeout ctx js).2.2 = .ok v := by
  rw [evalTimed_shape env timeout ctx js hk hl hq]
  simp [ha, if_pos ht, hr, hv]

/-- C8: an index read `chain[key]` on a pending chain (guard free, queue
below threshold, browser replying in time to both round trips) first
evaluates the membership check `'key' in <chain>` synchronously — its
wrapper is the next statement enqueued and its query id the next registered —
then raises KeyError when the reply is falsy, and otherwise evaluates
`chain['key']` synchronously and returns that reply's value. -/
theorem getitem_membership_first (env1 env2 : EvalEnv) (ctx : Ctx) (js : JSchain)
    (key : Str) (t1 t2 : Nat) (r1 r2 : StateRes) (v1 v2 : JVal)
    (hk : js.keep = true) (hl : ctx.lockHeld = false) (hq : ctx.tasks.length ≤ 3)
    (ha1 : env1.arrival = some (t1, r1)) (ht1 : t1 ≤ 10) (hr1 : r1.error = [])
    (hv1 : r1.value = some v1)
    (ha2 : env2.arrival = some (t2, r2)) (ht2 : t2 ≤ 10) (hr2 : r2.error = [])
    (hv2 : r2.value = some v2) :
    ((JSchain.getitem env1 env2 ctx js key).2.2 =
      if truthy v1 then .ok v2 else .error (.keyError (.jstr key))) ∧
    (∃ rest, (JSchain.getitem env1 env2 ctx js key).1.tasks =
      ctx.tasks ++ some (sendWrapper ('\x27' :: key ++ "\x27 in ".data ++ js.statement)
        ctx.nextId) :: rest) ∧
    (∃ rest, (JSchain.getitem env1 env2 ctx js key).1.queries =
      ctx.queries ++ (ctx.nextId, []) :: rest) := by
  have ht1' : t1 ≤ evalDefaultTimeout := ht1
  have ht2' : t2 ≤ evalDefaultTimeout := ht2
  have hs1 := evalTimed_shape env1 evalDefaultTimeout ctx
    ⟨('\x27' :: key ++ "\x27 in ".data) :: js.chain, true⟩ rfl hl (by omega)
  unfold JSchain.getitem JSchain._dup JSchain._prepend JSchain.evalChain
  dsimp only
  rw [hs1]
  simp only [ha1, hr1, hv1, if_pos ht1']
  simp only [if_true]
  rcases htv : truthy v1 with _ | _
  · rw [if_pos rfl]
    refine ⟨by simp, ⟨[], by simp [JSchain.statement]⟩, ⟨[], by simp⟩⟩
  · rw [if_neg (by simp)]
    refine ⟨?_, ?_, ?_⟩
    · rw [if_pos rfl]
      rw [evalTimed_res_ok _ evalDefaultTimeout _ _ t2 r2 v2 (by rw [getdata_keep]; exact hk)
        rfl (by simp; omega) ha2 ht2' hr2 hv2]
    · rw [evalTimed_tasks _ evalDefaultTimeout _ _ (by rw [getdata_keep]; exact hk)
        rfl (by simp; omega)]
      exact ⟨_, by simp [JSchain.statement]; rfl⟩
    · rw [evalTimed_queries _ evalDefaultTimeout _ _ (by rw [getdata_keep]; exact hk)
        rfl (by simp; omega)]
      exact ⟨_, by simp; rfl⟩

/-- C8 witness: a concrete chain `a['k']` with a truthy membership reply and
value reply 9 returns 9, with the membership wrapper enqueued first. -/
theorem getitem_membership_first_witness :
    ((JSchain.getitem ⟨fun _ => 0, some (0, ⟨some (.jbool true), []⟩)⟩
        ⟨fun _ => 0, some (0, ⟨some (.jnum 9), []⟩)⟩
        ⟨"u".data, [], [], 0, false, none⟩ ⟨["a".data], true⟩ ("k".data)).2.2 =
      .ok (.jnum 9)) ∧
    (∃ rest, (JSchain.getitem ⟨fun _ => 0, some (0, ⟨some (.jbool true), []⟩)⟩
        ⟨fun _ => 0, some (0, ⟨some (.jnum 9), []⟩)⟩
        ⟨"u".data, [], [], 0, false, none⟩ ⟨["a".data], true⟩ ("k".data)).1.tasks =
      some ("sendFromBrowserToServer(\"\x27k\x27 in a\", 0)".data) :: rest) := by
  have h := getitem_membership_first ⟨fun _ => 0, some (0, ⟨some (.jbool true), []⟩)⟩
    ⟨fun _ => 0, some (0, ⟨some (.jnum 9), []⟩)⟩
    ⟨"u".data, [], [], 0, false, none⟩ ⟨["a".data], true⟩ ("k".data)
    0 0 ⟨some (.jbool true), []⟩ ⟨some (.jnum 9), []⟩ (.jbool true) (.jnum 9)
    rfl rfl (by decide) rfl (by decide) rfl rfl rfl (by decide) rfl rfl
  refine ⟨?_, ?_⟩
  · rw [h.1]
    rfl
  · obtain ⟨rest, hrest⟩ := h.2.1
    exact ⟨rest, by rw [hrest]; rfl⟩

/-- C3 counterexample: a concrete `error` task reporting a remote exception
returns the empty reply and leaves the session's error slot empty (None), so
nothing is recorded for later re-raising; the handler's body is `return ''`
with the recording/raising line commented out. -/
theorem errorTask_not_recorded_counterexample :
    (ClientContext.processCommand 3
        ⟨[("p1".data, "u1".data)], [("p1".data, 0)], ⟨"u1".data, [], [], 0, false, none⟩⟩
        ⟨[]⟩ []
        [("session".data, .jstr ("p1".data)), ("task".data, .jstr ("error".data)),
         ("error".data, .jstr ("boom".data)), ("expr".data, .jstr ("x".data))]).w.ctx.errorSlot
      = none ∧
    (ClientContext.processCommand 3
        ⟨[("p1".data, "u1".data)], [("p1".data, 0)], ⟨"u1".data, [], [], 0, false, none⟩⟩
        ⟨[]⟩ []
        [("session".data, .jstr ("p1".data)), ("task".data, .jstr ("error".data)),
         ("error".data, .jstr ("boom".data)), ("expr".data, .jstr ("x".data))]).resp
      = .ok (some []) := by
  refine ⟨rfl, rfl⟩

/-- C3 (amended): an inbound `error` task is a no-op — it returns the empty
reply and does not touch the session's pending-error slot; only errors
recorded elsewhere (a destructor flush failure or an addTask timeout) sit in
that slot, and any such recorded error is re-raised, and the slot cleared, on
the next attribute access through the JS root object. -/
theorem errorTask_amended :
    (∀ (now : Int) (w : World) (obj : AppObj) (fxn : List (Int × PyFun)) (req : Req)
        (p u : Str),
        alookup req ("session".data) = some (.jstr p) →
        alookup w.pageMap p = some u →
        alookup req ("task".data) = some (.jstr ("error".data)) →
        (ClientContext.processCommand now w obj fxn req).resp = .ok (some []) ∧
        (ClientContext.processCommand now w obj fxn req).w.ctx.errorSlot = w.ctx.errorSlot) ∧
    (∀ (ctx : Ctx) (e : PyErr) (attr : Str), ctx.errorSlot = some e →
        JSroot.getattr ctx attr = ({ ctx with errorSlot := none }, .error e)) := by
  constructor
  · intro now w obj fxn req p u h1 h2 h3
    unfold ClientContext.processCommand
    simp only [h1, h2, h3]
    unfold processTask
    rw [if_neg (by decide), if_neg (by decide), if_neg (by decide), if_neg (by decide),
      if_neg (by decide), if_pos rfl]
    exact ⟨rfl, rfl⟩
  · intro ctx e attr h
    unfold JSroot.getattr
    rw [h]

/-- C3 witness: the amended behavior at concrete inputs — the error task
leaves an empty slot empty, and a session with a recorded TimeoutError
re-raises it on the next JSroot attribute access. -/
theorem errorTask_amended_witness :
    ((ClientContext.processCommand 3
        ⟨[("p1".data, "u1".data)], [("p1".data, 0)], ⟨"u1".data, [], [], 0, false, none⟩⟩
        ⟨[]⟩ []
        [("session".data, .jstr ("p1".data)), ("task".data, .jstr ("error".data)),
         ("error".data, .jstr ("boom".data)), ("expr".data, .jstr ("x".data))]).resp
      = .ok (some []) ∧
     (ClientContext.processCommand 3
        ⟨[("p1".data, "u1".data)], [("p1".data, 0)], ⟨"u1".data, [], [], 0, false, none⟩⟩
        ⟨[]⟩ []
        [("session".data, .jstr ("p1".data)), ("task".data, .jstr ("error".data)),
         ("error".data, .jstr ("boom".data)), ("expr".data, .jstr ("x".data))]).w.ctx.errorSlot
      = none) ∧
    JSroot.getattr ⟨"u".data, [], [], 0, false, some (.timeoutError ("t".data))⟩ ("a".data) =
      (⟨"u".data, [], [], 0, false, none⟩, .error (.timeoutError ("t".data))) := by
  refine ⟨?_, ?_⟩
  · have h := errorTask_amended.1 3
      ⟨[("p1".data, "u1".data)], [("p1".data, 0)], ⟨"u1".data, [], [], 0, false, none⟩⟩
      ⟨[]⟩ []
      [("session".data, .jstr ("p1".data)), ("task".data, .jstr ("error".data)),
       ("error".data, .jstr ("boom".data)), ("expr".data, .jstr ("x".data))]
      ("p1".data) ("u1".data) rfl rfl rfl
    exact ⟨h.1, h.2⟩
  · exact errorTask_amended.2 ⟨"u".data, [], [], 0, false, some (.timeoutError ("t".data))⟩
      (.timeoutError ("t".data)) ("a".data) rfl

/-- C4 counterexample: a concrete `set` request writes the backend property
with the Concurrency Guard never acquired, so the claimed discipline — the
lock held for the whole backend invocation triggered by a `set` task — fails. -/
theorem set_unguarded_counterexample :
    guardDiscipline (ClientContext.set ⟨[]⟩ false ("x".data) (.jnum 1)).events = false ∧
    (ClientContext.set ⟨[]⟩ false ("x".data) (.jnum 1)).events = [.writeAttr ("x".data)] := by
  refine ⟨rfl, rfl⟩

/-- C4 (amended): for `run` (blocking) and `get` the guard discipline holds —
the backend invocation happens with the lock held, the lock is released when
the invocation completes (also when the invoked function raises), and the
lock state is restored; but `set` performs the attribute write without ever
touching the lock. -/
theorem guard_discipline_amended :
    (∀ (obj : AppObj) (fxn : List (Int × PyFun)) (lockHeld : Bool) (f : Str)
        (args : List JVal),
        guardDiscipline (ClientContext.run obj fxn lockHeld f args true).events = true ∧
        (ClientContext.run obj fxn lockHeld f args true).lockAfter = lockHeld) ∧
    (∀ (obj : AppObj) (lockHeld : Bool) (e : Str),
        guardDiscipline (ClientContext.get obj lockHeld e).events = true ∧
        (ClientContext.get obj lockHeld e).lockAfter = lockHeld) ∧
    (∀ (obj : AppObj) (lockHeld : Bool) (e : Str) (v : JVal),
        (ClientContext.set obj lockHeld e v).events = [.writeAttr e] ∧
        Event.acquire ∉ (ClientContext.set obj lockHeld e v).events ∧
        (ClientContext.set obj lockHeld e v).lockAfter = lockHeld) := by
  refine ⟨?_, ?_, ?_⟩
  · intro obj fxn lockHeld f args
    rcases lockHeld with _ | _
    · unfold ClientContext.run
      rw [if_neg (by simp)]
      rcases h : resolveF obj fxn f args with e | r
      · exact ⟨rfl, rfl⟩
      · rcases r with ⟨f', as'⟩ | v | _
        · dsimp only
          rcases hf : f' as' with ⟨en, em⟩ | v <;> exact ⟨rfl, rfl⟩
        · exact ⟨rfl, rfl⟩
        · exact ⟨rfl, rfl⟩
    · exact ⟨rfl, rfl⟩
  · intro obj lockHeld e
    rcases lockHeld with _ | _
    · unfold ClientContext.get
      rw [if_neg (by simp)]
      rcases h : alookup obj.attrs e with _ | a
      · exact ⟨rfl, rfl⟩
      · rcases a with f | v <;> exact ⟨rfl, rfl⟩
    · exact ⟨rfl, rfl⟩
  · intro obj lockHeld e v
    exact ⟨rfl, by simp [ClientContext.set], rfl⟩

/-- C6 counterexample: invoking an undeclared backend method `nosuch` via
`run` yields the reply `{"error": "Unsupported: nosuch([])"}`, not the
`{"error": "MethodNotFound: nosuch"}` the claim promises. -/
theorem run_unknown_counterexample :
    (ClientContext.run ⟨[]⟩ [] false ("nosuch".data) [] true).result =
      .ok ("\x7b\"error\": \"Unsupported: nosuch([])\"\x7d".data) ∧
    "\x7b\"error\": \"Unsupported: nosuch([])\"\x7d".data ≠
      "\x7b\"error\": \"MethodNotFound: nosuch\"\x7d".data := by
  refine ⟨rfl, by decide⟩

/-- C6 (amended): a `run` request naming a function the backend object does
not define (and which is not the reserved `_callfxn` dispatch marker), with
the guard free, returns the JSON payload whose error field is
"Unsupported: <name>(<str(args)>)"; nothing is raised in the request thread,
the guard is acquired and released around the lookup, and the session
continues (the lock ends free and the reply is an ordinary payload). -/
theorem run_unknown_amended (obj : AppObj) (fxn : List (Int × PyFun)) (f : Str)
    (args : List JVal) (hf : f ≠ "_callfxn".data) (hn : alookup obj.attrs f = none) :
    ClientContext.run obj fxn false f args true =
      ⟨[.acquire, .release], false, .ok (unsupportedReply f args)⟩ := by
  unfold ClientContext.run
  rw [if_neg (by simp)]
  unfold resolveF
  rw [if_neg hf, hn]
  rfl

/-- C6 witness: the amended behavior at the concrete unknown name `nosuch`
with an empty argument list. -/
theorem run_unknown_amended_witness :
    ClientContext.run ⟨[]⟩ [] false ("nosuch".data) [] true =
      ⟨[.acquire, .release], false, .ok (unsupportedReply ("nosuch".data) [])⟩ :=
  run_unknown_amended ⟨[]⟩ [] ("nosuch".data) [] (by decide) rfl

/-- The synthesized head block of HtmlPage.insertJS for session `u`, page
`p`, and bootstrap body `J`. -/
def headBlockC9 : Str :=
  "<head><script>".data ++ uidScript ("u".data) ("p".data) ++ "J".data ++
    "</script></head>".data

/-- C9 counterexample: for the document `<html>` the claim places the
injection immediately after the `<html>` tag, but insertJS places the
synthesized head block before the match position and then appends the entire
original document, yielding the block followed by `<html>`. -/
theorem insertJS_html_counterexample :
    HtmlPage.insertJS ("u".data) ("p".data) ("J".data) ("<html>".data) =
      headBlockC9 ++ "<html>".data ∧
    headBlockC9 ++ "<html>".data ≠ "<html>".data ++ headBlockC9 := by
  refine ⟨rfl, by decide⟩

/-- C9 (amended): whatever injection rule fires — the bootstrap-filename
script match, the {{JSCRIPT}} placeholder, insertion before the first
`<script>` or before `</head>`, the head block inserted at a `<body>` or
`<html>` match with the entire document following, or the all-else prefix —
the emitted document contains the prelude defining the two page-scoped
variables UID and PAGEID. -/
theorem insertJS_defines_page_variables (uid pageid jscript html : Str) :
    ∃ pre post, HtmlPage.insertJS uid pageid jscript html =
      pre ++ uidScript uid pageid ++ post := by
  unfold HtmlPage.insertJS
  rcases h1 : pscriptSearch html 0 with _ | sx1
  case some =>
    exact ⟨html.take sx1 ++ "<script>".data, "</script>".data ++ html.drop sx1,
      by simp [List.append_assoc]⟩
  rcases h2 : findCI jscriptPat html 0 with _ | sx2
  case some =>
    exact ⟨html.take sx2, jscript ++ html.drop (sx2 + jscriptPat.length),
      by simp [List.append_assoc]⟩
  rcases h3 : findCI ("<script>".data) html 0 with _ | sx3
  case some =>
    exact ⟨html.take sx3 ++ "<script>".data,
      jscript ++ "</script>".data ++ html.drop sx3, by simp [List.append_assoc]⟩
  rcases h4 : findCI ("</head>".data) html 0 with _ | sx4
  case some =>
    exact ⟨html.take sx4 ++ "<script>".data,
      jscript ++ "</script>".data ++ html.drop sx4, by simp [List.append_assoc]⟩
  rcases h5 : findCI ("<body>".data) html 0 with _ | sx5
  case some =>
    exact ⟨html.take sx5 ++ "<head><script>".data,
      jscript ++ "</script></head>".data ++ html, by simp [List.append_assoc]⟩
  rcases h6 : findCI ("<html>".data) html 0 with _ | sx6
  case some =>
    exact ⟨html.take sx6 ++ "<head><script>".data,
      jscript ++ "</script></head>".data ++ html, by simp [List.append_assoc]⟩
  exact ⟨"<head><script>".data, jscript ++ "</script></head>".data ++ html,
    by simp [List.append_assoc]⟩

/-- C10: an inbound `state` request whose query id is absent from the
session's Pending-Query Table makes processCommand raise KeyError with that
id into the request-handling thread — the `self.queries[query]` lookup in
getQuery is unguarded — instead of returning an error reply. -/
theorem state_unknown_query_raises (now : Int) (w : World) (obj : AppObj)
    (fxn : List (Int × PyFun)) (req : Req) (p u : Str) (n : Int)
    (h1 : alookup req ("session".data) = some (.jstr p))
    (h2 : alookup w.pageMap p = some u)
    (h3 : alookup req ("task".data) = some (.jstr ("state".data)))
    (h4 : alookup req ("query".data) = some (.jnum n))
    (h5 : alookup w.ctx.queries n = none) :
    (ClientContext.processCommand now w obj fxn req).resp = .error (.keyError (.jnum n)) := by
  unfold ClientContext.processCommand
  simp only [h1, h2, h3]
  unfold processTask
  rw [if_pos rfl]
  simp only [h4]
  unfold ClientContext.getQuery
  simp only [h5]

/-- C10 witness: a concrete `state` request with query id 3 against a session
whose Pending-Query Table is empty raises KeyError 3. -/
theorem state_unknown_query_raises_witness :
    (ClientContext.processCommand 0
        ⟨[("p1".data, "u1".data)], [("p1".data, 0)], ⟨"u1".data, [], [], 0, false, none⟩⟩
        ⟨[]⟩ []
        [("session".data, .jstr ("p1".data)), ("task".data, .jstr ("state".data)),
         ("query".data, .jnum 3), ("value".data, .jnum 7), ("error".data, .jstr [])]).resp =
      .error (.keyError (.jnum 3)) :=
  state_unknown_query_raises 0
    ⟨[("p1".data, "u1".data)], [("p1".data, 0)], ⟨"u1".data, [], [], 0, false, none⟩⟩
    ⟨[]⟩ []
    [("session".data, .jstr ("p1".data)), ("task".data, .jstr ("state".data)),
     ("query".data, .jnum 3), ("value".data, .jnum 7), ("error".data, .jstr [])]
    ("p1".data) ("u1".data) 3 rfl rfl rfl rfl rfl
